import Mathlib

/-!
Verification of the Weinig tool-inventory core against its specification.

The definitions below are a shallow embedding of the Python sources:
* `src/core/tool_codes.py` — the `ToolCodeGenerator` class (code
  generation, decoding, validation);
* `src/core/database.py` — the `DatabaseManager` write operations on the
  `Tools`, `Profiles` and `Tool_Assignments` tables, modelled as explicit
  state passing over lists of rows;
* `src/services/tool_service.py` — the `ToolService` head/position table
  and the service-level `delete_tool` wrapper.

Python exceptions are modelled with `Except`; SQLite `NULL` is `Option`;
BLOB columns are `List Nat` (byte sequences), so that Python truthiness of
a BLOB value (`None` and `b''` are falsy) can be expressed faithfully.
-/

namespace Weinig

/-! ## `src/core/tool_codes.py` -/

/-- Embeds `ToolCodeGenerator.POSITION_MAP`: a single bidirectional dict, holding
both the forward (`'Bottom' -> '1'`) and reverse (`'1' -> 'Bottom'`)
entries, exactly as in the source. -/
def POSITION_MAP : List (String × String) :=
  [("Bottom", "1"), ("Top", "2"), ("Right", "3"), ("Left", "4"),
   ("1", "Bottom"), ("2", "Top"), ("3", "Right"), ("4", "Left")]

/-- Embeds `ToolCodeGenerator.TYPE_MAP`: bidirectional dict for tool types. -/
def TYPE_MAP : List (String × String) :=
  [("Straight", "0"), ("Profile", "1"),
   ("0", "Straight"), ("1", "Profile")]

/-- The decimal digit character for `d < 10`. -/
def digitChar10 (d : Nat) : Char :=
  if d = 0 then '0' else if d = 1 then '1' else if d = 2 then '2'
  else if d = 3 then '3' else if d = 4 then '4' else if d = 5 then '5'
  else if d = 6 then '6' else if d = 7 then '7' else if d = 8 then '8'
  else '9'

/-- Embeds the Python format `f"{profile_id:03d}"` on the range it is
applied to in the source (`generate` has already validated
`1 <= profile_id <= 999`): the zero-padded three-digit decimal
representation. -/
def pad3 (profile_id : Int) : String :=
  let n := profile_id.toNat
  String.mk [digitChar10 (n / 100), digitChar10 (n / 10 % 10), digitChar10 (n % 10)]

/-- Embeds `ToolCodeGenerator.generate`: validates the four parameters in source
order (raising `ValueError`, modelled as `Except.error`, with the exact
message) and concatenates position digit, type digit, padded profile id
and set digit.  The membership tests `position in cls.POSITION_MAP` /
`tool_type in cls.TYPE_MAP` test membership in the *bidirectional* dicts,
as the source does. -/
def generate (profile_id : Int) (position : String) (tool_type : String)
    (set_number : Int) : Except String String :=
  if ¬ (1 ≤ profile_id ∧ profile_id ≤ 999) then
    .error ("Profile ID must be 1-999, got " ++ toString profile_id)
  else if (POSITION_MAP.lookup position).isNone then
    .error ("Invalid position: " ++ position)
  else if (TYPE_MAP.lookup tool_type).isNone then
    .error ("Invalid tool type: " ++ tool_type)
  else if ¬ (1 ≤ set_number ∧ set_number ≤ 9) then
    .error ("Set number must be 1-9, got " ++ toString set_number)
  else
    let pos_code := (POSITION_MAP.lookup position).getD ""
    let type_code := (TYPE_MAP.lookup tool_type).getD ""
    .ok (pos_code ++ type_code ++ pad3 profile_id ++ toString set_number)

/-- Digit accumulator for `pyIntOfString`, entered after at least one
digit has been consumed.  A single underscore is allowed only between two
digits (Python's numeric-literal rule for `int`). -/
def pyDigitsAux : Nat → List Char → Option Nat
  | acc, [] => some acc
  | acc, c :: cs =>
    if c = '_' then
      match cs with
      | [] => none
      | c2 :: cs2 =>
        if c2.isDigit then pyDigitsAux (10 * acc + (c2.toNat - 48)) cs2 else none
    else if c.isDigit then pyDigitsAux (10 * acc + (c.toNat - 48)) cs
    else none

/-- Parses a non-empty run of decimal digits (with Python's
between-digits underscores). -/
def pyDigitsToNat : List Char → Option Nat
  | [] => none
  | c :: cs => if c.isDigit then pyDigitsAux (c.toNat - 48) cs else none

/-- Embeds Python's `int(s)` on strings: optional surrounding whitespace,
an optional sign, then decimal digits (underscores allowed between
digits); anything else raises `ValueError`, modelled as `none`. -/
def pyIntOfString (s : String) : Option Int :=
  let t := ((s.data.dropWhile Char.isWhitespace).reverse.dropWhile
      Char.isWhitespace).reverse
  match t with
  | [] => none
  | c :: cs =>
    if c = '+' then (pyDigitsToNat cs).map Int.ofNat
    else if c = '-' then (pyDigitsToNat cs).map (fun n => -(n : Int))
    else (pyDigitsToNat (c :: cs)).map Int.ofNat

/-- The record returned by `ToolCodeGenerator.decode`. -/
structure DecodedCode where
  position : String
  tool_type : String
  profile_id : Int
  set_number : Int
deriving DecidableEq, Repr

/-- Embeds `ToolCodeGenerator.decode`.  The argument is `Option String` so that
the Python call `decode(None)` is representable; `if not code or
len(code) != 6: return None` is the first guard.  The `int(...)` calls
sit in a `try` whose `except (ValueError, IndexError)` returns `None`;
the two dict `.get` lookups supply defaults and cannot fail. -/
def decode (code : Option String) : Option DecodedCode :=
  match code with
  | none => none
  | some s =>
    if s = "" ∨ s.length ≠ 6 then none
    else
      match s.data with
      | [c0, c1, c2, c3, c4, c5] =>
        match pyIntOfString (String.mk [c2, c3, c4]),
              pyIntOfString (String.mk [c5]) with
        | some p, some n =>
          some ⟨(POSITION_MAP.lookup (String.mk [c0])).getD "Bottom",
                (TYPE_MAP.lookup (String.mk [c1])).getD "Profile", p, n⟩
        | _, _ => none
      | _ => none

/-- Embeds `ToolCodeGenerator.validate_code`. -/
def validate_code (code : Option String) : Bool :=
  (decode code).isSome

/-! ## `src/services/tool_service.py`: the head → position table -/

/-- Embeds `ToolService.get_head_position_mapping`: the fixed 10-entry dict. -/
def get_head_position_mapping : List (Int × String) :=
  [(1, "Bottom"), (2, "Top"), (3, "Right"), (4, "Left"),
   (5, "Right"), (6, "Left"), (7, "Top"), (8, "Bottom"),
   (9, "Top"), (10, "Bottom")]

/-- Embeds `ToolService.get_required_position_for_head`: `mapping.get(head_number)`
— a plain dict lookup whose miss is the `None` default, not an error. -/
def get_required_position_for_head (head_number : Int) : Option String :=
  get_head_position_mapping.lookup head_number

/-! ## `src/core/database.py`: state model

The SQLite database is modelled as explicit state: the `Profiles` table
(only the primary keys matter to the operations under study), the `Tools`
table and the `Tool_Assignments` table as lists of rows, plus the two
AUTOINCREMENT counters.  `PRAGMA foreign_keys = ON` is set on every
connection, so the FK and CHECK constraints of the schema are part of the
model: a violating INSERT/UPDATE raises `sqlite3.IntegrityError`, which
each method's `except` clause turns into a rollback. -/

/-- One row of the `Tools` table. -/
structure ToolRow where
  id : Nat
  profile_id : Nat
  position : String
  tool_type : String
  set_number : Int
  code : String
  knives_count : Int
  template_id : Option String
  set_status : String
  notes : String
  photo : Option (List Nat)
deriving DecidableEq, Repr

/-- One row of the `Tool_Assignments` table
(`UNIQUE(Profile_ID, Head_Number)`, `CHECK (Head_Number BETWEEN 1 AND 10)`,
FKs to `Profiles` and `Tools` with `ON DELETE CASCADE`). -/
structure AssignmentRow where
  id : Nat
  profile_id : Nat
  tool_id : Nat
  head_number : Nat
  rpm : Option Int
  pass_depth : Option ℚ
  work_material : String
  remarks : String
deriving DecidableEq, Repr

/-- The database state. -/
structure DB where
  profiles : List Nat
  tools : List ToolRow
  assignments : List AssignmentRow
  next_tool_id : Nat
  next_assignment_id : Nat
deriving DecidableEq, Repr

/-- Python truthiness of a BLOB column value: `None` and `b''` are falsy,
any non-empty byte string is truthy. -/
def blobTruthy : Option (List Nat) → Bool
  | none => false
  | some bs => !bs.isEmpty

/-- The query in `DatabaseManager.add_tool`:
`SELECT ID, Photo FROM Tools WHERE Auto_Generated_Code LIKE 'base%' AND
Profile_ID = ? ORDER BY ID LIMIT 1` — the matching row with the least id. -/
def firstToolInSet (tools : List ToolRow) (base_code : String)
    (profile_id : Nat) : Option ToolRow :=
  (tools.filter fun t =>
      base_code.data.isPrefixOf t.code.data && t.profile_id == profile_id).foldl
    (fun acc t =>
      match acc with
      | none => some t
      | some u => if t.id < u.id then some t else some u)
    none

/-- The `tool_data` dict passed to `DatabaseManager.add_tool`.  The four
required keys are plain fields (the source raises `Missing required
field` when one is absent; callers in this repository always supply
them).  The optional keys are `Option`: `none` models an absent key, and
for `Photo` — whose stored value may itself be SQL `NULL` — the value is
again an `Option`. -/
structure AddToolData where
  Profile_ID : Nat
  Position : String
  Tool_Type : String
  Auto_Generated_Code : String
  Knives_Count : Option Int
  Template_ID : Option (Option String)
  Set_Status : Option String
  Notes : Option String
  Photo : Option (Option (List Nat))
deriving DecidableEq, Repr

/-- Embeds `DatabaseManager.add_tool`: checks the profile FK, checks the code is
a 6-digit string, looks up the earliest tool of the same profile whose
code shares the 5-character prefix, inherits its photo when that photo is
truthy, and inserts the row (set number taken from the code's last
digit).  A duplicate `Auto_Generated_Code` violates the table's UNIQUE
constraint: `sqlite3.IntegrityError` is caught, the transaction rolled
back and the error re-raised. -/
def add_tool (db : DB) (d : AddToolData) : Except String (DB × Nat) :=
  if ¬ db.profiles.contains d.Profile_ID then
    .error ("Profile with ID " ++ toString d.Profile_ID ++ " does not exist")
  else if ¬ (d.Auto_Generated_Code.length = 6 ∧
      d.Auto_Generated_Code.data.all Char.isDigit) then
    .error "Auto_Generated_Code must be a 6-digit number"
  else
    let base_code := String.mk (d.Auto_Generated_Code.data.take 5)
    let first_tool := firstToolInSet db.tools base_code d.Profile_ID
    let photo :=
      match first_tool with
      | some ft => if blobTruthy ft.photo then ft.photo else d.Photo.getD none
      | none => d.Photo.getD none
    if db.tools.any (fun t => t.code == d.Auto_Generated_Code) then
      .error "UNIQUE constraint failed: Tools.Auto_Generated_Code"
    else
      let set_num : Int :=
        ((d.Auto_Generated_Code.data.getD 5 '0').toNat : Int) - 48
      let row : ToolRow :=
        ⟨db.next_tool_id, d.Profile_ID, d.Position, d.Tool_Type, set_num,
         d.Auto_Generated_Code, d.Knives_Count.getD 6, d.Template_ID.getD none,
         d.Set_Status.getD "ready", d.Notes.getD "", photo⟩
      .ok (⟨db.profiles, db.tools ++ [row], db.assignments,
            db.next_tool_id + 1, db.next_assignment_id⟩, db.next_tool_id)

/-- The `tool_data` dict passed to `DatabaseManager.update_tool` (the
source builds it from `Tool.to_dict()` or ad hoc); every key is optional.
The update loop skips the keys `id`, `auto_generated_code` and `photo`
(case-insensitively), maps the remaining keys to their columns through
`column_mapping`, then appends `Auto_Generated_Code` when present.  The
`Photo` key is therefore *never* written by this method: the variables
`is_image_update` and `photo_data` are computed and never used, and the
photo-handling block referred to by the comment in the source is absent. -/
structure UpdateToolData where
  Profile_ID : Option Nat
  Position : Option String
  Tool_Type : Option String
  Set_Number : Option Int
  Set_Status : Option String
  Knives_Count : Option Int
  Template_ID : Option (Option String)
  Notes : Option String
  Auto_Generated_Code : Option String
  Photo : Option (Option (List Nat))
deriving DecidableEq, Repr

/-- Tests `if not tool_data:` — the dict is empty. -/
def UpdateToolData.isEmptyDict (d : UpdateToolData) : Bool :=
  d.Profile_ID.isNone && d.Position.isNone && d.Tool_Type.isNone &&
  d.Set_Number.isNone && d.Set_Status.isNone && d.Knives_Count.isNone &&
  d.Template_ID.isNone && d.Notes.isNone && d.Auto_Generated_Code.isNone &&
  d.Photo.isNone

/-- The `update_fields` list built by the loop is non-empty: some key
other than `id`/`photo` is present (`Auto_Generated_Code` is appended
separately). -/
def UpdateToolData.hasSqlField (d : UpdateToolData) : Bool :=
  d.Profile_ID.isSome || d.Position.isSome || d.Tool_Type.isSome ||
  d.Set_Number.isSome || d.Set_Status.isSome || d.Knives_Count.isSome ||
  d.Template_ID.isSome || d.Notes.isSome || d.Auto_Generated_Code.isSome

/-- The effect of the generated `UPDATE Tools SET ... WHERE ID = ?`
statement on the targeted row: each present field overwrites its column;
`Photo` was skipped by the loop and is left untouched. -/
def applyUpdate (t : ToolRow) (d : UpdateToolData) : ToolRow :=
  ⟨t.id, d.Profile_ID.getD t.profile_id, d.Position.getD t.position,
   d.Tool_Type.getD t.tool_type, d.Set_Number.getD t.set_number,
   d.Auto_Generated_Code.getD t.code, d.Knives_Count.getD t.knives_count,
   d.Template_ID.getD t.template_id, d.Set_Status.getD t.set_status,
   d.Notes.getD t.notes, t.photo⟩

/-- Embeds `DatabaseManager.update_tool`: returns `False` on an empty dict, on a
missing row, or on any exception (the method's `except Exception` logs
and returns `False` after rollback); otherwise executes the UPDATE (when
any field besides `id`/`photo` is present) and returns `True`.  An UPDATE
that violates the UNIQUE code constraint or the `Profile_ID` FK raises
and is rolled back. -/
def update_tool (db : DB) (tool_id : Nat) (d : UpdateToolData) :
    DB × Bool :=
  if d.isEmptyDict then (db, false)
  else
    match db.tools.find? (fun t => t.id == tool_id) with
    | none => (db, false)
    | some _ =>
      if ¬ d.hasSqlField then (db, true)
      else if (match d.Auto_Generated_Code with
               | some c => db.tools.any fun t => t.id ≠ tool_id && t.code == c
               | none => false) then (db, false)
      else if (match d.Profile_ID with
               | some p => !db.profiles.contains p
               | none => false) then (db, false)
      else
        (⟨db.profiles,
          db.tools.map (fun t => if t.id == tool_id then applyUpdate t d else t),
          db.assignments, db.next_tool_id, db.next_assignment_id⟩, true)

/-- Embeds `DatabaseManager.delete_tool`: returns `False` when the id does not
exist, otherwise deletes the row (the `Tool_Assignments` FK on `Tool_ID`
is `ON DELETE CASCADE`, so the tool's assignments go with it) and returns
`True`. -/
def db_delete_tool (db : DB) (tool_id : Nat) : DB × Bool :=
  match db.tools.find? (fun t => t.id == tool_id) with
  | none => (db, false)
  | some _ =>
    (⟨db.profiles, db.tools.filter (fun t => t.id ≠ tool_id),
      db.assignments.filter (fun a => a.tool_id ≠ tool_id),
      db.next_tool_id, db.next_assignment_id⟩, true)

/-- Embeds `DatabaseManager.assign_tool_to_head`: in one transaction, DELETE the
assignment rows for `(profile_id, head_number)` and INSERT the new row;
`conn.commit()` on success.  When the INSERT violates a constraint (the
`CHECK (Head_Number BETWEEN 1 AND 10)`, or an FK to a missing profile or
tool), the `sqlite3.Error` handler returns `False` and leaving the `with`
block on the exception rolls the whole transaction back, the DELETE
included — the previously committed assignment survives.

`assignKey` is the row predicate of the shared
`WHERE Profile_ID = ? AND Head_Number = ?` clause. -/
def assignKey (profile_id head_number : Nat) (a : AssignmentRow) : Bool :=
  a.profile_id == profile_id && a.head_number == head_number

/-- Embeds `DatabaseManager.assign_tool_to_head`: see `assignKey` above for the
transactional delete-then-insert description. -/
def assign_tool_to_head (db : DB) (profile_id : Nat) (head_number : Nat)
    (tool_id : Nat) (rpm : Option Int) (pass_depth : Option ℚ)
    (work_material : String) (remarks : String) : DB × Bool :=
  if ¬ (1 ≤ head_number ∧ head_number ≤ 10) ∨
      ¬ db.profiles.contains profile_id ∨
      ¬ db.tools.any (fun t => t.id == tool_id) then
    (db, false)
  else
    let kept := db.assignments.filter fun a => !assignKey profile_id head_number a
    (⟨db.profiles, db.tools,
      kept ++ [⟨db.next_assignment_id, profile_id, tool_id, head_number,
               rpm, pass_depth, work_material, remarks⟩],
      db.next_tool_id, db.next_assignment_id + 1⟩, true)

/-! ## `src/services/tool_service.py`: the `delete_tool` wrapper -/

/-- The outcome of a `ToolService` call as seen by its caller: either a
returned value or a propagated Python exception. -/
inductive ServiceOutcome
  | returned (b : Bool)
  | raised (msg : String)
deriving DecidableEq, Repr

/-- Embeds `ToolService.is_tool_assigned`:
`SELECT COUNT(*) FROM Tool_Assignments WHERE Tool_ID = ?` compared
against 0. -/
def is_tool_assigned (db : DB) (tool_id : Nat) : Bool :=
  0 < (db.assignments.filter fun a => a.tool_id == tool_id).length

/-- Embeds `ToolService.delete_tool`: `_raise_if_read_only` runs before the
`try` block, so its `PermissionError` propagates.  Inside the `try`, an
assigned tool triggers `raise ValueError("Cannot delete tool: ...")` —
but that `raise` sits in the same `try`, and the method's own
`except Exception` clause catches it, logs it and returns `False`; no
exception reaches the caller from the body.  Otherwise the database
deletion runs and its boolean is returned. -/
def service_delete_tool (read_only : Bool) (db : DB) (tool_id : Nat) :
    DB × ServiceOutcome :=
  if read_only then
    (db, .raised ("This operation is not available in Read Only mode.\n\n" ++
      "Please switch to Full Access mode by pressing Ctrl+Shift+F."))
  else if is_tool_assigned db tool_id then
    (db, .returned false)
  else
    let r := db_delete_tool db tool_id
    (r.1, .returned r.2)

/-! ## Specification predicates and concrete test fixtures -/

/-- The spec's set-photo invariant: all `Tools` rows whose
`Auto_Generated_Code` shares the same first 5 characters have
byte-identical `Photo` data. -/
def photoInvariant (db : DB) : Prop :=
  ∀ t1 ∈ db.tools, ∀ t2 ∈ db.tools,
    t1.code.data.take 5 = t2.code.data.take 5 → t1.photo = t2.photo

instance (db : DB) : Decidable (photoInvariant db) := by
  unfold photoInvariant; infer_instance

/-- Set member "100011", id 10, photo bytes `[1]` (the set's first). -/
def toolA : ToolRow :=
  ⟨10, 1, "Bottom", "Straight", 1, "100011", 6, none, "ready", "", some [1]⟩

/-- Set member "100012", id 11, sharing prefix "10001" and photo `[1]`. -/
def toolB : ToolRow :=
  ⟨11, 1, "Bottom", "Straight", 2, "100012", 6, none, "ready", "", some [1]⟩

/-- A database holding profile 1 and the two-member set `{toolA, toolB}`,
whose shared photo is `[1]` — `photoInvariant` holds. -/
def dbAB : DB := ⟨[1], [toolA, toolB], [], 12, 1⟩

/-- An update dict carrying only a photo change (`{'Photo': bytes([2])}`). -/
def updOnlyPhoto : UpdateToolData :=
  ⟨none, none, none, none, none, none, none, none, none, some (some [2])⟩

/-- An update dict carrying a photo change and a notes change. -/
def updPhotoNotes : UpdateToolData :=
  ⟨none, none, none, none, none, none, none, some "n", none, some (some [2])⟩

/-- State of `toolB` after `updPhotoNotes`: the notes changed, the photo did not. -/
def toolBn : ToolRow :=
  ⟨11, 1, "Bottom", "Straight", 2, "100012", 6, none, "ready", "n", some [1]⟩

/-- State of `dbAB` after `update_tool 11 updPhotoNotes`. -/
def dbABn : DB := ⟨[1], [toolA, toolBn], [], 12, 1⟩

/-- First set member with a SQL `NULL` photo. -/
def toolA0 : ToolRow :=
  ⟨10, 1, "Bottom", "Straight", 1, "100011", 6, none, "ready", "", none⟩

/-- A database holding only `toolA0`. -/
def dbA0 : DB := ⟨[1], [toolA0], [], 11, 1⟩

/-- Insert data for a second set member carrying its own photo `[7]`. -/
def addB7 : AddToolData :=
  ⟨1, "Bottom", "Straight", "100012", none, none, none, none, some (some [7])⟩

/-- The row `add_tool dbA0 addB7` inserts. -/
def toolB7 : ToolRow :=
  ⟨11, 1, "Bottom", "Straight", 2, "100012", 6, none, "ready", "", some [7]⟩

/-- State of `dbA0` after inserting `addB7`: the set `{toolA0, toolB7}` now holds
two different photos (`NULL` and `[7]`). -/
def dbBad : DB := ⟨[1], [toolA0, toolB7], [], 12, 1⟩

/-- First set member whose photo is the *empty* byte string `b''` —
non-`NULL` in SQL, but falsy in Python. -/
def toolAe : ToolRow :=
  ⟨10, 1, "Bottom", "Straight", 1, "100011", 6, none, "ready", "", some []⟩

/-- A database holding only `toolAe`. -/
def dbAe : DB := ⟨[1], [toolAe], [], 11, 1⟩

/-- Insert data for a second set member carrying its own photo `[5]`. -/
def addB5 : AddToolData :=
  ⟨1, "Bottom", "Straight", "100012", none, none, none, none, some (some [5])⟩

/-- State of `dbAe` after inserting `addB5`: the caller's photo `[5]` was kept
because the first member's photo `b''` is falsy. -/
def dbAe5 : DB :=
  ⟨[1], [toolAe,
         ⟨11, 1, "Bottom", "Straight", 2, "100012", 6, none, "ready", "", some [5]⟩],
   [], 12, 1⟩

/-- A database with one tool (id 1) assigned to head 3 of profile 5. -/
def dbAssigned : DB :=
  ⟨[5], [⟨1, 5, "Right", "Profile", 1, "310051", 6, none, "ready", "", none⟩],
   [⟨1, 5, 1, 3, none, none, "", ""⟩], 2, 2⟩

/-- A database with two tools (ids 1 and 2) under profile 5 and no
assignments. -/
def dbTwoTools : DB :=
  ⟨[5], [⟨1, 5, "Right", "Profile", 1, "310051", 6, none, "ready", "", none⟩,
         ⟨2, 5, "Right", "Profile", 2, "310052", 6, none, "ready", "", none⟩],
   [], 3, 1⟩

/-! ## Helper lemmas -/

theorem digitChar10_spec (d : Nat) (h : d < 10) :
    (digitChar10 d).isDigit = true ∧ (digitChar10 d).isWhitespace = false ∧
    digitChar10 d ≠ '+' ∧ digitChar10 d ≠ '-' ∧ digitChar10 d ≠ '_' ∧
    (digitChar10 d).toNat = 48 + d := by
  interval_cases d <;> exact ⟨by decide, by decide, by decide, by decide,
    by decide, by decide⟩

theorem dropWhile_of_all_false {α} (p : α → Bool) :
    ∀ (l : List α), (∀ c ∈ l, p c = false) → l.dropWhile p = l := by
  intro l h
  cases l with
  | nil => rfl
  | cons c cs =>
    rw [List.dropWhile_cons, h c (List.mem_cons_self c cs)]
    simp

theorem pyDigitsAux_cons (acc : Nat) (c : Char) (cs : List Char)
    (h5 : c ≠ '_') (h1 : c.isDigit = true) :
    pyDigitsAux acc (c :: cs) = pyDigitsAux (10 * acc + (c.toNat - 48)) cs := by
  rw [pyDigitsAux.eq_def]
  dsimp only
  rw [if_neg h5, if_pos h1]

theorem pyDigitsAux_dchars (ds : List Nat) :
    ∀ (acc : Nat), (∀ d ∈ ds, d < 10) →
      pyDigitsAux acc (ds.map digitChar10) =
        some (ds.foldl (fun a d => 10 * a + d) acc) := by
  induction ds with
  | nil => intro acc _; rfl
  | cons d ds ih =>
    intro acc h
    have hd : d < 10 := h d (List.mem_cons_self d ds)
    obtain ⟨h1, _, _, _, h5, h6⟩ := digitChar10_spec d hd
    rw [List.map_cons, pyDigitsAux_cons acc _ _ h5 h1, h6,
      Nat.add_sub_cancel_left, List.foldl_cons]
    exact ih (10 * acc + d) (fun x hx => h x (List.mem_cons_of_mem d hx))

theorem pyIntOfString_dchars (d0 : Nat) (ds : List Nat) (h0 : d0 < 10)
    (h : ∀ d ∈ ds, d < 10) :
    pyIntOfString (String.mk (digitChar10 d0 :: ds.map digitChar10)) =
      some (Int.ofNat (ds.foldl (fun a d => 10 * a + d) d0)) := by
  obtain ⟨h1, h2, h3, h4, h5, h6⟩ := digitChar10_spec d0 h0
  have hws : ∀ c ∈ digitChar10 d0 :: ds.map digitChar10,
      c.isWhitespace = false := by
    intro c hc
    rcases List.mem_cons.mp hc with rfl | hc
    · exact h2
    · obtain ⟨d, hd, rfl⟩ := List.mem_map.mp hc
      exact (digitChar10_spec d (h d hd)).2.1
  have hws' : ∀ c ∈ (digitChar10 d0 :: ds.map digitChar10).reverse,
      c.isWhitespace = false := by
    intro c hc; exact hws c (List.mem_reverse.mp hc)
  simp only [pyIntOfString, dropWhile_of_all_false _ _ hws,
    dropWhile_of_all_false _ _ hws', List.reverse_reverse]
  rw [if_neg h3, if_neg h4]
  simp only [pyDigitsToNat]
  rw [if_pos h1, h6, Nat.add_sub_cancel_left, pyDigitsAux_dchars ds d0 h]
  rfl

theorem pad3_parse (p : Int) (h1 : 1 ≤ p) (h2 : p ≤ 999) :
    pyIntOfString (pad3 p) = some p := by
  have hn1 : p.toNat / 100 < 10 := by omega
  have := pyIntOfString_dchars (p.toNat / 100) [p.toNat / 10 % 10, p.toNat % 10]
    hn1 (by intro d hd; simp at hd; rcases hd with rfl | rfl <;> omega)
  simp only [List.map_cons, List.map_nil, List.foldl_cons, List.foldl_nil] at this
  unfold pad3
  rw [this]
  congr 1
  rw [Int.ofNat_eq_coe]
  omega

theorem single_digit_parse (e : Nat) (he : e < 10) :
    pyIntOfString (String.mk [digitChar10 e]) = some (Int.ofNat e) := by
  have := pyIntOfString_dchars e [] he (by intro d hd; cases hd)
  simpa using this

theorem toString_int_digit (s : Int) (h1 : 1 ≤ s) (h2 : s ≤ 9) :
    toString s = String.mk [digitChar10 s.toNat] := by
  interval_cases s <;> rfl

theorem mk6_guard (c0 c1 c2 c3 c4 c5 : Char) :
    ¬ (String.mk [c0, c1, c2, c3, c4, c5] = "" ∨
       (String.mk [c0, c1, c2, c3, c4, c5]).length ≠ 6) := by
  rintro (hcon | hcon)
  · have : ([c0, c1, c2, c3, c4, c5] : List Char) = [] :=
      congrArg String.data hcon
    simp at this
  · simp [String.length] at hcon

theorem decode_six (c0 c1 : Char) (a b c e : Nat)
    (ha : a < 10) (hb : b < 10) (hc : c < 10) (he : e < 10) :
    decode (some (String.mk
        [c0, c1, digitChar10 a, digitChar10 b, digitChar10 c, digitChar10 e])) =
      some ⟨(POSITION_MAP.lookup (String.mk [c0])).getD "Bottom",
            (TYPE_MAP.lookup (String.mk [c1])).getD "Profile",
            Int.ofNat (100 * a + (10 * b + c)), Int.ofNat e⟩ := by
  have h3 : pyIntOfString (String.mk
      [digitChar10 a, digitChar10 b, digitChar10 c]) =
      some (Int.ofNat (10 * (10 * a + b) + c)) := by
    have := pyIntOfString_dchars a [b, c] ha
      (by intro d hd; simp at hd; rcases hd with rfl | rfl <;> omega)
    simpa using this
  have h1 : pyIntOfString (String.mk [digitChar10 e]) = some (Int.ofNat e) :=
    single_digit_parse e he
  simp only [decode]
  rw [if_neg (mk6_guard c0 c1 (digitChar10 a) (digitChar10 b) (digitChar10 c)
    (digitChar10 e))]
  simp only [h3, h1]
  have harith : 10 * (10 * a + b) + c = 100 * a + (10 * b + c) := by ring
  rw [harith]

/-- The main content of the round-trip property, for one concrete
position/type pair: `generate` succeeds on validated input and `decode`
recovers every field. -/
theorem round_trip_core (p s : Int) (hp1 : 1 ≤ p) (hp2 : p ≤ 999)
    (hs1 : 1 ≤ s) (hs2 : s ≤ 9) (posName tyName : String) (pc tc : Char)
    (hpos1 : POSITION_MAP.lookup posName = some (String.mk [pc]))
    (hty1 : TYPE_MAP.lookup tyName = some (String.mk [tc]))
    (hpos2 : (POSITION_MAP.lookup (String.mk [pc])).getD "Bottom" = posName)
    (hty2 : (TYPE_MAP.lookup (String.mk [tc])).getD "Profile" = tyName) :
    ∃ code, generate p posName tyName s = .ok code ∧
      decode (some code) = some ⟨posName, tyName, p, s⟩ := by
  refine ⟨String.mk [pc] ++ String.mk [tc] ++ pad3 p ++ toString s, ?_, ?_⟩
  · unfold generate
    rw [if_neg (not_not_intro ⟨hp1, hp2⟩), if_neg (by simp [hpos1]),
      if_neg (by simp [hty1]), if_neg (not_not_intro ⟨hs1, hs2⟩),
      hpos1, hty1]
    rfl
  · rw [toString_int_digit s hs1 hs2]
    have hstr : String.mk [pc] ++ String.mk [tc] ++ pad3 p ++
        String.mk [digitChar10 s.toNat] =
        String.mk [pc, tc, digitChar10 (p.toNat / 100),
          digitChar10 (p.toNat / 10 % 10), digitChar10 (p.toNat % 10),
          digitChar10 s.toNat] := by
      unfold pad3
      rfl
    have e3 : Int.ofNat (100 * (p.toNat / 100) +
        (10 * (p.toNat / 10 % 10) + p.toNat % 10)) = p := by
      rw [Int.ofNat_eq_coe]; omega
    have e4 : Int.ofNat s.toNat = s := by
      rw [Int.ofNat_eq_coe]; omega
    rw [hstr, decode_six pc tc _ _ _ _ (by omega) (by omega) (by omega)
      (by omega), hpos2, hty2, e3, e4]

/-! ## Claim theorems -/

/-- C1, counterexample to the concrete example in the claim: the claim
states `generate(7, "Top", "Profile", 3) = "211003"`, but the generated
code is `"2" + "1" + "007" + "3" = "210073"`; decoding the claim's string
`"211003"` yields profile id 100 (digits `100`), not 7. -/
theorem C1_example_counterexample :
    generate 7 "Top" "Profile" 3 = .ok "210073" ∧
    ("210073" : String) ≠ "211003" ∧
    decode (some "211003") = some ⟨"Top", "Profile", 100, 3⟩ :=
  ⟨rfl, by decide, by decide⟩

/-- C1, amended: for every valid profile id, position, tool type and set
number, `generate` succeeds and `decode` recovers exactly the four
fields; the concrete example is `generate(7, "Top", "Profile", 3) =
"210073"` (not `"211003"`) with `decode("210073") = {Top, Profile, 7, 3}`. -/
theorem C1_round_trip :
    (∀ (p s : Int) (pos ty : String), 1 ≤ p → p ≤ 999 →
      (pos = "Bottom" ∨ pos = "Top" ∨ pos = "Right" ∨ pos = "Left") →
      (ty = "Straight" ∨ ty = "Profile") →
      1 ≤ s → s ≤ 9 →
      ∃ code, generate p pos ty s = .ok code ∧
        decode (some code) = some ⟨pos, ty, p, s⟩) ∧
    generate 7 "Top" "Profile" 3 = .ok "210073" ∧
    decode (some "210073") = some ⟨"Top", "Profile", 7, 3⟩ := by
  refine ⟨?_, rfl, by decide⟩
  rintro p s pos ty hp1 hp2 (rfl | rfl | rfl | rfl) (rfl | rfl) hs1 hs2
  · exact round_trip_core p s hp1 hp2 hs1 hs2 _ _ '1' '0' rfl rfl rfl rfl
  · exact round_trip_core p s hp1 hp2 hs1 hs2 _ _ '1' '1' rfl rfl rfl rfl
  · exact round_trip_core p s hp1 hp2 hs1 hs2 _ _ '2' '0' rfl rfl rfl rfl
  · exact round_trip_core p s hp1 hp2 hs1 hs2 _ _ '2' '1' rfl rfl rfl rfl
  · exact round_trip_core p s hp1 hp2 hs1 hs2 _ _ '3' '0' rfl rfl rfl rfl
  · exact round_trip_core p s hp1 hp2 hs1 hs2 _ _ '3' '1' rfl rfl rfl rfl
  · exact round_trip_core p s hp1 hp2 hs1 hs2 _ _ '4' '0' rfl rfl rfl rfl
  · exact round_trip_core p s hp1 hp2 hs1 hs2 _ _ '4' '1' rfl rfl rfl rfl

/-- Witness for `C1_round_trip` at profile 7, Top/Profile, set 3. -/
theorem C1_round_trip_witness :
    ∃ code, generate 7 "Top" "Profile" 3 = .ok code ∧
      decode (some code) = some ⟨"Top", "Profile", 7, 3⟩ :=
  C1_round_trip.1 7 3 "Top" "Profile" (by norm_num) (by norm_num)
    (Or.inr (Or.inl rfl)) (Or.inr rfl) (by norm_num) (by norm_num)

/-- C5: the four validation errors fire with the exact messages on the
claim's out-of-range inputs — but the claim's universal clauses for
`position`/`tool_type` are false: membership is tested in the
*bidirectional* maps, so the reverse keys `'1'..'4'` and `'0'`/`'1'` are
accepted as position/type even though they are not among the four
position names or two type names, and `generate` then emits a malformed
non-6-digit code, contradicting its own documented output format. -/
theorem C5_validation :
    generate 0 "Bottom" "Profile" 1 =
      .error "Profile ID must be 1-999, got 0" ∧
    generate 1000 "Bottom" "Profile" 1 =
      .error "Profile ID must be 1-999, got 1000" ∧
    generate 1 "Diagonal" "Profile" 1 = .error "Invalid position: Diagonal" ∧
    generate 1 "Bottom" "Curved" 1 = .error "Invalid tool type: Curved" ∧
    generate 1 "Bottom" "Profile" 0 = .error "Set number must be 1-9, got 0" ∧
    generate 1 "Bottom" "Profile" 10 =
      .error "Set number must be 1-9, got 10" ∧
    generate 1 "1" "Profile" 1 = .ok "Bottom10011" ∧
    generate 1 "Bottom" "0" 1 = .ok "1Straight0011" :=
  ⟨rfl, rfl, rfl, rfl, rfl, rfl, rfl, rfl⟩

/-- C6: `decode` is a total function (the embedding returns a value on
every input — the source's `try/except` converts the only possible
exceptions, from `int(...)`, into `None`), and it returns `None` exactly
when the input is not a 6-character string whose profile substring
(characters 3–5) and set character (character 6) both parse as Python
ints; in particular the claim's four examples all return `None`. -/
theorem C6_decode_none_iff :
    (∀ code : Option String,
      decode code = none ↔
        ¬ ∃ s : String, code = some s ∧ s.length = 6 ∧
          (pyIntOfString (String.mk ((s.data.drop 2).take 3))).isSome = true ∧
          (pyIntOfString (String.mk (s.data.drop 5))).isSome = true) ∧
    decode (some "12345") = none ∧ decode (some "") = none ∧
    decode none = none ∧ decode (some "12A456") = none := by
  refine ⟨?_, by decide, by decide, rfl, by decide⟩
  intro code
  match code with
  | none =>
    refine iff_of_true rfl ?_
    rintro ⟨s, hs, _⟩
    exact Option.noConfusion hs
  | some ⟨l⟩ =>
    rcases l with _ | ⟨a, _ | ⟨b, _ | ⟨c, _ | ⟨d, _ | ⟨e, _ | ⟨f, _ | ⟨g, rest⟩⟩⟩⟩⟩⟩⟩
    · refine iff_of_true rfl ?_
      rintro ⟨s, hs, hlen, _, _⟩
      cases Option.some.inj hs
      have hl : ([] : List Char).length = 6 := hlen
      simp at hl
    · refine iff_of_true ?_ ?_
      · simp only [decode]
        rw [if_pos (Or.inr (fun hcon => by
          have hl : ([a] : List Char).length = 6 := hcon
          simp only [List.length_cons, List.length_nil] at hl
          omega))]
      · rintro ⟨s, hs, hlen, _, _⟩
        cases Option.some.inj hs
        have hl : ([a] : List Char).length = 6 := hlen
        simp only [List.length_cons, List.length_nil] at hl
        omega
    · refine iff_of_true ?_ ?_
      · simp only [decode]
        rw [if_pos (Or.inr (fun hcon => by
          have hl : ([a, b] : List Char).length = 6 := hcon
          simp only [List.length_cons, List.length_nil] at hl
          omega))]
      · rintro ⟨s, hs, hlen, _, _⟩
        cases Option.some.inj hs
        have hl : ([a, b] : List Char).length = 6 := hlen
        simp only [List.length_cons, List.length_nil] at hl
        omega
    · refine iff_of_true ?_ ?_
      · simp only [decode]
        rw [if_pos (Or.inr (fun hcon => by
          have hl : ([a, b, c] : List Char).length = 6 := hcon
          simp only [List.length_cons, List.length_nil] at hl
          omega))]
      · rintro ⟨s, hs, hlen, _, _⟩
        cases Option.some.inj hs
        have hl : ([a, b, c] : List Char).length = 6 := hlen
        simp only [List.length_cons, List.length_nil] at hl
        omega
    · refine iff_of_true ?_ ?_
      · simp only [decode]
        rw [if_pos (Or.inr (fun hcon => by
          have hl : ([a, b, c, d] : List Char).length = 6 := hcon
          simp only [List.length_cons, List.length_nil] at hl
          omega))]
      · rintro ⟨s, hs, hlen, _, _⟩
        cases Option.some.inj hs
        have hl : ([a, b, c, d] : List Char).length = 6 := hlen
        simp only [List.length_cons, List.length_nil] at hl
        omega
    · refine iff_of_true ?_ ?_
      · simp only [decode]
        rw [if_pos (Or.inr (fun hcon => by
          have hl : ([a, b, c, d, e] : List Char).length = 6 := hcon
          simp only [List.length_cons, List.length_nil] at hl
          omega))]
      · rintro ⟨s, hs, hlen, _, _⟩
        cases Option.some.inj hs
        have hl : ([a, b, c, d, e] : List Char).length = 6 := hlen
        simp only [List.length_cons, List.length_nil] at hl
        omega
    · have hguard := mk6_guard a b c d e f
      simp only [decode]
      rw [if_neg hguard]
      rcases hp : pyIntOfString (String.mk [c, d, e]) with _ | p <;>
        rcases hn : pyIntOfString (String.mk [f]) with _ | n
      · refine iff_of_true rfl ?_
        rintro ⟨s, hs, hlen, h1, h2⟩
        cases Option.some.inj hs
        simp only [List.drop, List.take] at h1
        rw [hp] at h1
        simp at h1
      · refine iff_of_true rfl ?_
        rintro ⟨s, hs, hlen, h1, h2⟩
        cases Option.some.inj hs
        simp only [List.drop, List.take] at h1
        rw [hp] at h1
        simp at h1
      · refine iff_of_true rfl ?_
        rintro ⟨s, hs, hlen, h1, h2⟩
        cases Option.some.inj hs
        simp only [List.drop] at h2
        rw [hn] at h2
        simp at h2
      · refine iff_of_false (fun hcon => Option.noConfusion hcon)
          (not_not_intro ⟨String.mk [a, b, c, d, e, f], rfl, rfl, ?_, ?_⟩)
        · simp only [List.drop, List.take]
          rw [hp]
          rfl
        · simp only [List.drop]
          rw [hn]
          rfl
    · refine iff_of_true ?_ ?_
      · simp only [decode]
        rw [if_pos (Or.inr (fun hcon => by
          have hl : (a :: b :: c :: d :: e :: f :: g :: rest).length = 6 := hcon
          simp only [List.length_cons, List.length_nil] at hl
          omega))]
      · rintro ⟨s, hs, hlen, _, _⟩
        cases Option.some.inj hs
        have hl : (a :: b :: c :: d :: e :: f :: g :: rest).length = 6 := hlen
        simp only [List.length_cons, List.length_nil] at hl
        omega

/-- C7: whenever the profile substring and set character of a 6-character
code parse as ints, `decode` succeeds (it cannot raise): an unknown first
character falls back to position `"Bottom"` and an unknown second
character falls back to type `"Profile"`; concretely,
`decode("901991") = {Bottom, Straight, 199, 1}`. -/
theorem C7_decode_fallback :
    (∀ (c0 c1 c2 c3 c4 c5 : Char) (p n : Int),
      pyIntOfString (String.mk [c2, c3, c4]) = some p →
      pyIntOfString (String.mk [c5]) = some n →
      ∃ r : DecodedCode,
        decode (some (String.mk [c0, c1, c2, c3, c4, c5])) = some r ∧
        r.profile_id = p ∧ r.set_number = n ∧
        (POSITION_MAP.lookup (String.mk [c0]) = none → r.position = "Bottom") ∧
        (TYPE_MAP.lookup (String.mk [c1]) = none → r.tool_type = "Profile")) ∧
    decode (some "901991") = some ⟨"Bottom", "Straight", 199, 1⟩ := by
  refine ⟨?_, by decide⟩
  intro c0 c1 c2 c3 c4 c5 p n hp hn
  refine ⟨⟨(POSITION_MAP.lookup (String.mk [c0])).getD "Bottom",
           (TYPE_MAP.lookup (String.mk [c1])).getD "Profile", p, n⟩,
    ?_, rfl, rfl, ?_, ?_⟩
  · simp only [decode]
    rw [if_neg (mk6_guard c0 c1 c2 c3 c4 c5)]
    simp [hp, hn]
  · intro h0; rw [h0]; rfl
  · intro h1; rw [h1]; rfl

/-- Witness for `C7_decode_fallback` at code "901991". -/
theorem C7_decode_fallback_witness :
    ∃ r : DecodedCode,
      decode (some (String.mk ['9', '0', '1', '9', '9', '1'])) = some r ∧
      r.profile_id = 199 ∧ r.set_number = 1 ∧
      (POSITION_MAP.lookup (String.mk ['9']) = none → r.position = "Bottom") ∧
      (TYPE_MAP.lookup (String.mk ['0']) = none → r.tool_type = "Profile") :=
  C7_decode_fallback.1 '9' '0' '1' '9' '9' '1' 199 1 (by decide) (by decide)

/-- C9, counterexample to the claim as stated: for out-of-range head
numbers the function does not reject the call before the lookup — it
performs the dict lookup and returns its `None` miss default, a normal
return value that the caller receives without any error. -/
theorem C9_claim_counterexample :
    get_required_position_for_head 11 = none ∧
    get_required_position_for_head 0 = none := by
  exact ⟨by decide, by decide⟩

/-- C9, amended: for head numbers outside 1..10 the function returns
`None` (`dict.get`'s miss sentinel — no exception, no position); for
1..10 it returns exactly the fixed table entry. -/
theorem C9_head_table :
    (∀ h : Int, (h < 1 ∨ 10 < h) → get_required_position_for_head h = none) ∧
    get_required_position_for_head 1 = some "Bottom" ∧
    get_required_position_for_head 2 = some "Top" ∧
    get_required_position_for_head 3 = some "Right" ∧
    get_required_position_for_head 4 = some "Left" ∧
    get_required_position_for_head 5 = some "Right" ∧
    get_required_position_for_head 6 = some "Left" ∧
    get_required_position_for_head 7 = some "Top" ∧
    get_required_position_for_head 8 = some "Bottom" ∧
    get_required_position_for_head 9 = some "Top" ∧
    get_required_position_for_head 10 = some "Bottom" := by
  refine ⟨?_, by decide, by decide, by decide, by decide, by decide,
    by decide, by decide, by decide, by decide, by decide⟩
  intro h hh
  have k1 : (h == (1 : Int)) = false := beq_eq_false_iff_ne.mpr (by omega)
  have k2 : (h == (2 : Int)) = false := beq_eq_false_iff_ne.mpr (by omega)
  have k3 : (h == (3 : Int)) = false := beq_eq_false_iff_ne.mpr (by omega)
  have k4 : (h == (4 : Int)) = false := beq_eq_false_iff_ne.mpr (by omega)
  have k5 : (h == (5 : Int)) = false := beq_eq_false_iff_ne.mpr (by omega)
  have k6 : (h == (6 : Int)) = false := beq_eq_false_iff_ne.mpr (by omega)
  have k7 : (h == (7 : Int)) = false := beq_eq_false_iff_ne.mpr (by omega)
  have k8 : (h == (8 : Int)) = false := beq_eq_false_iff_ne.mpr (by omega)
  have k9 : (h == (9 : Int)) = false := beq_eq_false_iff_ne.mpr (by omega)
  have k10 : (h == (10 : Int)) = false := beq_eq_false_iff_ne.mpr (by omega)
  simp only [get_required_position_for_head, get_head_position_mapping,
    List.lookup, k1, k2, k3, k4, k5, k6, k7, k8, k9, k10]

/-- Witness for `C9_head_table` at head number 11. -/
theorem C9_head_table_witness : get_required_position_for_head 11 = none :=
  C9_head_table.1 11 (by omega)

/-- C10, counterexample to the claim as stated: deleting an assigned tool
is refused, but no `ValueError` reaches the caller — the `raise` inside
`ToolService.delete_tool`'s `try` block is caught by the method's own
`except Exception` clause, which logs it and returns `False` (the GUI's
`except ValueError` handler is therefore dead code). -/
theorem C10_claim_counterexample :
    service_delete_tool false dbAssigned 1 = (dbAssigned, .returned false) ∧
    ServiceOutcome.returned false ≠ .raised
      ("Cannot delete tool: The tool is assigned to a head. " ++
       "Please remove it from the head first.") := by
  exact ⟨by decide, by decide⟩

/-- C10, amended: for an assigned tool, `ToolService.delete_tool` refuses
the deletion by returning `False` (the internal `ValueError` is swallowed
by its own handler) and the database state is unchanged; a tool with no
assignments is deleted and `True` is returned. -/
theorem C10_delete_guard :
    (∀ (db : DB) (tool_id : Nat), is_tool_assigned db tool_id = true →
      service_delete_tool false db tool_id = (db, .returned false)) ∧
    (∀ (db : DB) (tool_id : Nat), is_tool_assigned db tool_id = false →
      db.tools.any (fun t => t.id == tool_id) = true →
      (service_delete_tool false db tool_id).2 = .returned true ∧
      (service_delete_tool false db tool_id).1.tools =
        db.tools.filter (fun t => t.id ≠ tool_id) ∧
      (service_delete_tool false db tool_id).1.assignments =
        db.assignments.filter (fun a => a.tool_id ≠ tool_id)) := by
  constructor
  · intro db tid h
    unfold service_delete_tool
    rw [if_neg Bool.false_ne_true, if_pos h]
  · intro db tid h hany
    unfold service_delete_tool
    rw [if_neg Bool.false_ne_true, if_neg (by rw [h]; exact Bool.false_ne_true)]
    obtain ⟨t, ht, htid⟩ := List.any_eq_true.mp hany
    unfold db_delete_tool
    cases hfind : db.tools.find? (fun t => t.id == tid) with
    | none =>
      exact absurd htid (by
        have := List.find?_eq_none.mp hfind t ht
        simp only [this]
        exact Bool.false_ne_true)
    | some u => exact ⟨rfl, rfl, rfl⟩

/-- Witness for `C10_delete_guard`: the refusal branch on `dbAssigned`
(tool 1 is assigned) and the success branch on `dbTwoTools` (tool 2 has
no assignment). -/
theorem C10_delete_guard_witness :
    service_delete_tool false dbAssigned 1 = (dbAssigned, .returned false) ∧
    (service_delete_tool false dbTwoTools 2).2 = .returned true :=
  ⟨C10_delete_guard.1 dbAssigned 1 (by decide),
   (C10_delete_guard.2 dbTwoTools 2 (by decide) (by decide)).1⟩

/-- C2: the photo-set invariant is not maintained by the repository
writes.  `update_tool` with a photo payload on the set's first member
returns `True` but changes nothing at all — its update loop explicitly
skips the `photo` key and the propagation block is absent (only its dead
helper variables remain) — and `add_tool` violates the invariant
directly: when the set's first member has a `NULL` photo, a caller-
supplied photo is stored on the new member, leaving the two members with
different photo data. -/
theorem C2_photo_invariant_broken :
    photoInvariant dbAB ∧
    update_tool dbAB 10 updOnlyPhoto = (dbAB, true) ∧
    add_tool dbA0 addB7 = .ok (dbBad, 11) ∧
    ¬ photoInvariant dbBad := by
  exact ⟨by decide, rfl, rfl, by decide⟩

/-- C3: updating a non-first set member with a payload containing a photo
change and a notes change succeeds (`True`), applies the notes change and
silently drops the photo change; no error is raised anywhere — the
message "Image can only be updated for the first tool in the set" does
not exist in the code (the GUI merely disables the image buttons of
non-first members). -/
theorem C3_no_photo_rejection :
    update_tool dbAB 11 updPhotoNotes = (dbABn, true) ∧
    dbABn.tools.map ToolRow.photo = [some [1], some [1]] ∧
    dbABn.tools.map ToolRow.notes = ["", "n"] := by
  exact ⟨rfl, rfl, rfl⟩

/-- C8, counterexample to the claim as stated: the first member's photo
is tested for Python *truthiness*, not for being non-`NULL` — when the
earliest set member holds the empty byte string `b''` (non-null), the
caller's photo is kept instead of the first member's. -/
theorem C8_claim_counterexample :
    toolAe.photo = some [] ∧ toolAe.photo ≠ none ∧
    add_tool dbAe addB5 = .ok (dbAe5, 11) ∧
    dbAe5.tools.map ToolRow.photo = [some [], some [5]] := by
  exact ⟨rfl, by decide, rfl, rfl⟩

/-- C8, amended: on insert, if the earliest same-profile tool sharing the
new code's 5-character prefix exists and has a *truthy* (non-null,
non-empty) photo, the new row is stored with that photo, overriding the
caller's; if the earliest member's photo is `NULL` or empty, or no such
tool exists, the new row keeps the caller's (possibly null) photo. -/
theorem C8_photo_inheritance :
    ∀ (db : DB) (d : AddToolData),
      db.profiles.contains d.Profile_ID = true →
      d.Auto_Generated_Code.length = 6 →
      d.Auto_Generated_Code.data.all Char.isDigit = true →
      db.tools.any (fun t => t.code == d.Auto_Generated_Code) = false →
      ∃ row : ToolRow,
        add_tool db d = .ok (⟨db.profiles, db.tools ++ [row],
          db.assignments, db.next_tool_id + 1, db.next_assignment_id⟩,
          db.next_tool_id) ∧
        (∀ ft, firstToolInSet db.tools
            (String.mk (d.Auto_Generated_Code.data.take 5)) d.Profile_ID =
              some ft →
          (∀ bs, ft.photo = some bs → bs ≠ [] → row.photo = ft.photo) ∧
          ((ft.photo = none ∨ ft.photo = some []) →
            row.photo = d.Photo.getD none)) ∧
        (firstToolInSet db.tools
            (String.mk (d.Auto_Generated_Code.data.take 5)) d.Profile_ID =
              none →
          row.photo = d.Photo.getD none) := by
  intro db d h1 h2 h3 h4
  simp only [add_tool]
  rw [if_neg (not_not_intro h1), if_neg (not_not_intro ⟨h2, h3⟩),
    if_neg (by rw [h4]; exact Bool.false_ne_true)]
  cases hft : firstToolInSet db.tools
      (String.mk (d.Auto_Generated_Code.data.take 5)) d.Profile_ID with
  | none =>
    refine ⟨_, rfl, ?_, ?_⟩
    · intro ft hft2
      exact Option.noConfusion hft2
    · intro _
      rfl
  | some ft0 =>
    refine ⟨_, rfl, ?_, ?_⟩
    · intro ft hft2
      have hf : ft0 = ft := Option.some.inj hft2
      subst hf
      constructor
      · intro bs hbs hne
        have hbt : blobTruthy ft0.photo = true := by
          rw [hbs]
          cases bs with
          | nil => exact absurd rfl hne
          | cons x xs => rfl
        show (if blobTruthy ft0.photo = true then ft0.photo
              else d.Photo.getD none) = ft0.photo
        rw [if_pos hbt]
      · intro hcon
        show (if blobTruthy ft0.photo = true then ft0.photo
              else d.Photo.getD none) = d.Photo.getD none
        rcases hcon with hcon | hcon <;> rw [hcon] <;> rfl
    · intro hcon
      exact Option.noConfusion hcon

/-- Witness for `C8_photo_inheritance`: inserting `addB7` into `dbA0`
(where the set's first member exists but has a `NULL` photo). -/
theorem C8_photo_inheritance_witness :
    ∃ row : ToolRow,
      add_tool dbA0 addB7 = .ok (⟨dbA0.profiles, dbA0.tools ++ [row],
        dbA0.assignments, dbA0.next_tool_id + 1, dbA0.next_assignment_id⟩,
        dbA0.next_tool_id) ∧
      (∀ ft, firstToolInSet dbA0.tools
          (String.mk (addB7.Auto_Generated_Code.data.take 5))
            addB7.Profile_ID = some ft →
        (∀ bs, ft.photo = some bs → bs ≠ [] → row.photo = ft.photo) ∧
        ((ft.photo = none ∨ ft.photo = some []) →
          row.photo = addB7.Photo.getD none)) ∧
      (firstToolInSet dbA0.tools
          (String.mk (addB7.Auto_Generated_Code.data.take 5))
            addB7.Profile_ID = none →
        row.photo = addB7.Photo.getD none) :=
  C8_photo_inheritance dbA0 addB7 (by decide) (by decide) (by decide)
    (by decide)

/-- Evaluates `assign_tool_to_head` on inputs satisfying every INSERT constraint:
the transaction commits, replacing the `(profile, head)` assignment. -/
theorem assign_ok (db : DB) (p h t : Nat) (rpm : Option Int)
    (pd : Option ℚ) (wm rk : String)
    (hh1 : 1 ≤ h) (hh2 : h ≤ 10) (hp : db.profiles.contains p = true)
    (ht : db.tools.any (fun x => x.id == t) = true) :
    assign_tool_to_head db p h t rpm pd wm rk =
      (⟨db.profiles, db.tools,
        (db.assignments.filter fun a => !assignKey p h a) ++
          [⟨db.next_assignment_id, p, t, h, rpm, pd, wm, rk⟩],
        db.next_tool_id, db.next_assignment_id + 1⟩, true) := by
  unfold assign_tool_to_head
  rw [if_neg]
  rintro (hcon | hcon | hcon)
  · exact hcon ⟨hh1, hh2⟩
  · exact hcon hp
  · exact hcon ht

/-- After deleting every row matching the key and appending one matching
row, filtering by the key returns exactly that row. -/
theorem filter_key_replaced (l : List AssignmentRow) (p h : Nat)
    (row : AssignmentRow) (hrow : assignKey p h row = true) :
    ((l.filter fun a => !assignKey p h a) ++ [row]).filter
      (assignKey p h) = [row] := by
  rw [List.filter_append, List.filter_filter]
  simp only [Bool.and_not_self]
  rw [List.filter_false, List.filter_cons, if_pos hrow]
  rfl

/-- C4: assigning X then Y to the same `(profile, head)` leaves exactly
one assignment row for that pair, bound to Y (the DELETE removes every
old row, the INSERT adds the single new one); and when the INSERT step
fails (here: the tool id violates the FK because it does not exist), the
transaction rolls back and the previously committed state — including any
existing assignment — survives intact. -/
theorem C4_assign_replace :
    (∀ (db : DB) (p h X Y : Nat) (rpm1 rpm2 : Option Int)
        (pd1 pd2 : Option ℚ) (wm1 rk1 wm2 rk2 : String),
      1 ≤ h → h ≤ 10 → db.profiles.contains p = true →
      db.tools.any (fun t => t.id == X) = true →
      db.tools.any (fun t => t.id == Y) = true →
      (assign_tool_to_head db p h X rpm1 pd1 wm1 rk1).2 = true ∧
      (assign_tool_to_head
        (assign_tool_to_head db p h X rpm1 pd1 wm1 rk1).1
        p h Y rpm2 pd2 wm2 rk2).2 = true ∧
      (((assign_tool_to_head
          (assign_tool_to_head db p h X rpm1 pd1 wm1 rk1).1
          p h Y rpm2 pd2 wm2 rk2).1.assignments.filter
            (assignKey p h)).map AssignmentRow.tool_id) = [Y]) ∧
    (∀ (db : DB) (p h Y : Nat) (rpm : Option Int) (pd : Option ℚ)
        (wm rk : String),
      db.tools.any (fun t => t.id == Y) = false →
      assign_tool_to_head db p h Y rpm pd wm rk = (db, false)) := by
  constructor
  · intro db p h X Y rpm1 rpm2 pd1 pd2 wm1 rk1 wm2 rk2 hh1 hh2 hp hX hY
    rw [assign_ok db p h X rpm1 pd1 wm1 rk1 hh1 hh2 hp hX]
    dsimp only
    rw [assign_ok ⟨db.profiles, db.tools,
        (db.assignments.filter fun a => !assignKey p h a) ++
          [(⟨db.next_assignment_id, p, X, h, rpm1, pd1, wm1, rk1⟩ :
            AssignmentRow)],
        db.next_tool_id, db.next_assignment_id + 1⟩
      p h Y rpm2 pd2 wm2 rk2 hh1 hh2 hp hY]
    dsimp only
    refine ⟨rfl, rfl, ?_⟩
    rw [filter_key_replaced _ p h _ (by simp [assignKey])]
    rfl
  · intro db p h Y rpm pd wm rk hY
    unfold assign_tool_to_head
    rw [if_pos (Or.inr (Or.inr (by rw [hY]; exact Bool.false_ne_true)))]

/-- Witness for `C4_assign_replace`: on `dbTwoTools`, assigning tool 1
then tool 2 to head 3 of profile 5 leaves exactly one row, bound to
tool 2. -/
theorem C4_assign_replace_witness :
    (assign_tool_to_head dbTwoTools 5 3 1 none none "" "").2 = true ∧
    (assign_tool_to_head
      (assign_tool_to_head dbTwoTools 5 3 1 none none "" "").1
      5 3 2 none none "" "").2 = true ∧
    (((assign_tool_to_head
        (assign_tool_to_head dbTwoTools 5 3 1 none none "" "").1
        5 3 2 none none "" "").1.assignments.filter
          (assignKey 5 3)).map AssignmentRow.tool_id) = [2] :=
  C4_assign_replace.1 dbTwoTools 5 3 1 2 none none none none "" "" "" ""
    (by norm_num) (by norm_num) (by decide) (by decide) (by decide)

end Weinig
